import Mathlib

/-!
Shallow embedding of `oneloginapi/__init__.py`: a OneLogin directory-API
client that caches an XML listing document (`OneLogin._cache`, parsed with
`lxml.objectify.fromstring`) and offers `_list` / `_filter` / `_find`
lookups over it, plus `APIObject`, a lazy field-access wrapper around one
XML element.

Modelling conventions:
- XML elements become the inductive `Element` (tag, optional text, ordered
  children).  `lxml` never produces an empty-string text node from parsing
  (an empty element has text `None`), which `Option String` mirrors.
- The HTTP layer (`requests.Session.get`) is an oracle parameter
  `net : String → GetOutcome`; `requests` raises its own exception on a
  connection-level failure and does NOT raise on a non-2xx status (the code
  never calls `raise_for_status`), which the model reproduces.
- `lxml.objectify.fromstring` is an external collaborator, modelled as a
  parameter `parse : String → Option Element` (`none` = XMLSyntaxError).
- Python exceptions become the `PyError` sum; stateful methods return the
  new state, the list of listing-endpoint URLs fetched (the network trace),
  and an `Except`/`Option` error outcome, translated statement by
  statement so that an exception aborts before later assignments.
-/

/-- Element models one XML element node: tag name, text content
(`none` for an empty element, as in lxml), and ordered child elements. -/
inductive Element where
  | mk (tag : String) (text : Option String) (children : List Element)

mutual

/-- Decidable equality of elements (component-wise). -/
def Element.decEq : (a b : Element) → Decidable (a = b)
  | .mk t x cs, .mk u y ds =>
    if ht : t = u then
      if hx : x = y then
        match Element.decEqList cs ds with
        | .isTrue hc => .isTrue (by rw [ht, hx, hc])
        | .isFalse hc => .isFalse (by intro h; injection h; contradiction)
      else .isFalse (by intro h; injection h; contradiction)
    else .isFalse (by intro h; injection h; contradiction)

/-- Decidable equality of element lists. -/
def Element.decEqList : (as bs : List Element) → Decidable (as = bs)
  | [], [] => .isTrue rfl
  | [], _ :: _ => .isFalse (by intro h; cases h)
  | _ :: _, [] => .isFalse (by intro h; cases h)
  | a :: as, b :: bs =>
    match Element.decEq a b, Element.decEqList as bs with
    | .isTrue h1, .isTrue h2 => .isTrue (by rw [h1, h2])
    | .isFalse h1, _ => .isFalse (by intro h; injection h; contradiction)
    | _, .isFalse h2 => .isFalse (by intro h; injection h; contradiction)

end

instance : DecidableEq Element := Element.decEq

/-- Tag name of an element. -/
def Element.tag : Element → String
  | .mk t _ _ => t

/-- Text content of an element (`None` in lxml for an empty element). -/
def Element.text : Element → Option String
  | .mk _ x _ => x

/-- Ordered list of direct child elements. -/
def Element.children : Element → List Element
  | .mk _ _ c => c

/-- Embedding of `ElementBase.find(key)` for a plain tag-name path: the
first direct child whose tag equals `key`, or `None`. -/
def Element.findChild (el : Element) (key : String) : Option Element :=
  el.children.find? (fun c => c.tag == key)

mutual

/-- All elements of the tree in document (preorder) order, the element
itself first.  This is the node universe an XPath `//tag` step ranges
over (the root element included). -/
def Element.descendantsOrSelf : Element → List Element
  | .mk t x cs => Element.mk t x cs :: descendantsList cs

/-- Concatenated preorder listings of a forest, left to right. -/
def descendantsList : List Element → List Element
  | [] => []
  | e :: es => e.descendantsOrSelf ++ descendantsList es

end

/-- Outcome of one `requests.Session.get` call: either a response carrying
an HTTP status code and a body, or a connection-level failure (on which
`requests` raises).  `requests` returns the response object for every
status code, 2xx or not. -/
inductive GetOutcome where
  | response (status : Nat) (content : String)
  | failure
deriving DecidableEq

/-- Python exceptions the embedded code can raise.  `requestsError` is a
`requests` transport exception (connection refused, …); `xmlSyntaxError`
is `lxml.etree.XMLSyntaxError` from `fromstring`; `xpathEvalError` is
lxml's error for a malformed XPath expression; `attributeError` is
Python's `AttributeError` (missing objectify child attribute, or `.text`
on `None`).  The module also defines `class NetworkException(Exception)`,
but no statement in the source ever raises it, so it has no constructor
here. -/
inductive PyError where
  | requestsError
  | xmlSyntaxError
  | xpathEvalError
  | attributeError
deriving DecidableEq

/-- State of a `OneLogin` client: `_url` (the listing endpoint set by the
concrete subclass) and `_cache` (`None` until the first successful
reload). -/
structure OLState where
  url : String
  cache : Option Element
deriving DecidableEq

namespace OneLogin

/-- Embedding of `OneLogin._reload(url=None)`:

    if url == None: url = self._url
    resp = self._conn.get(url)
    self._cache = lxml.objectify.fromstring(resp.content)

Returns (new state, URLs fetched, raised exception if any).  The HTTP
status of the response is never inspected, and the cache assignment is
the last statement, so an exception from `get` or `fromstring` leaves
`_cache` untouched. -/
def reload (net : String → GetOutcome) (parse : String → Option Element)
    (st : OLState) (urlArg : Option String) :
    OLState × List String × Option PyError :=
  let url := urlArg.getD st.url
  match net url with
  | .failure => (st, [url], some .requestsError)
  | .response _status content =>
    match parse content with
    | none => (st, [url], some .xmlSyntaxError)
    | some doc => ({ st with cache := some doc }, [url], none)

/-- Modelled from the spec: `cls.load(o.id, self._api_key)` — the per-type
constructor classmethod (defined on the `APIObject` subclasses, which are
not part of this file) fetches the per-id detail document and constructs
a DirectoryObject.  It is modelled as an abstract constructor `load`
applied to the record's `id` child element, exactly the argument the
comprehension passes.  `o.id` on an objectify element raises
`AttributeError` when the record has no `id` child. -/
def loadAll {β : Type} (load : Element → β) : List Element → Except PyError (List β)
  | [] => .ok []
  | o :: os =>
    match o.findChild "id" with
    | none => .error .attributeError
    | some i => (loadAll load os).map (fun rest => load i :: rest)

/-- Records of the section named `api_type`: every direct child of the
document root tagged `api_type`, in document order — exactly the elements
the objectify iteration `for o in getattr(self._cache, api_type)`
yields. -/
def sectionRecords (doc : Element) (api_type : String) : List Element :=
  doc.children.filter (fun c => c.tag == api_type)

/-- Collects each record's `id` child element, in order; `none` as soon as
one record lacks an `id` child (the case in which the Python
comprehension raises `AttributeError`). -/
def idsOf : List Element → Option (List Element)
  | [] => some []
  | o :: os =>
    match o.findChild "id" with
    | none => none
    | some i => (idsOf os).map (fun r => i :: r)

/-- Embedding of the read after the cache check in `_list`:

    objlist = getattr(self._cache, api_type)
    return [cls.load(o.id, self._api_key) for o in objlist]

On an objectify root, `getattr(root, api_type)` returns the first child
element tagged `api_type` (raising `AttributeError` when there is none),
and iterating that element yields every same-tagged sibling in document
order. -/
def listQuery {β : Type} (load : Element → β) (doc : Element)
    (api_type : String) : Except PyError (List β) :=
  if doc.children.any (fun c => c.tag == api_type) then
    loadAll load (sectionRecords doc api_type)
  else
    .error .attributeError

/-- Embedding of `OneLogin._list(api_type, cls, refresh=False)`:

    if refresh or self._cache is None:
        self._reload(self._url)
    objlist = getattr(self._cache, api_type)
    return [cls.load(o.id, self._api_key) for o in objlist]

A reload exception propagates before the cache is read. -/
def list {β : Type} (net : String → GetOutcome) (parse : String → Option Element)
    (load : Element → β) (st : OLState) (api_type : String) (refresh : Bool) :
    OLState × List String × Except PyError (List β) :=
  let step := if refresh || st.cache.isNone
    then reload net parse st (some st.url)
    else (st, [], none)
  match step with
  | (st1, tr, some e) => (st1, tr, .error e)
  | (st1, tr, none) =>
    match st1.cache with
    | none => (st1, tr, .error .attributeError)
    | some doc => (st1, tr, listQuery load doc api_type)

/-- Embedding of the Python %-interpolation building the XPath text in
`_filter`: `'//%s/%s[text()="%s"]/..' % (api_type, field, search)` — the
caller-supplied strings are spliced into the query verbatim, with no
escaping. -/
def buildQuery (api_type field search : String) : String :=
  "//" ++ api_type ++ "/" ++ field ++ "[text()=\"" ++ search ++ "\"]/.."

/-- Characters allowed in a name token of the modelled XPath grammar
(an NCName-style tag name). -/
def isNameChar (c : Char) : Bool :=
  c.isAlphanum || c == '_' || c == '-' || c == '.'

/-- Longest prefix of characters satisfying `p`, with the remainder. -/
def spanChars (p : Char → Bool) : List Char → List Char × List Char
  | [] => ([], [])
  | c :: cs =>
    if p c then
      let r := spanChars p cs
      (c :: r.1, r.2)
    else ([], c :: cs)

/-- Strips an expected literal prefix, returning the remainder, or `none`
when the input does not start with it. -/
def stripLit : List Char → List Char → Option (List Char)
  | [], r => some r
  | _ :: _, [] => none
  | p :: ps, r :: rs => if p == r then stripLit ps rs else none

/-- Parser for the exact query shape `_filter` constructs,
`//NAME/NAME[text()="LITERAL"]/..` — the grammar lxml's XPath engine sees.
The string literal extends to the first `"`; if what follows is not
exactly `"]/..`, the expression is malformed and lxml raises
`XPathEvalError` (this is where an unescaped quote in `search` breaks the
query).  Returns the parsed (section tag, field tag, literal). -/
def parseQuery (q : String) : Option (String × String × String) :=
  match stripLit ['/', '/'] q.data with
  | none => none
  | some r0 =>
    let pa := spanChars isNameChar r0
    if pa.1.isEmpty then none else
    match pa.2 with
    | '/' :: r2 =>
      let pf := spanChars isNameChar r2
      if pf.1.isEmpty then none else
      match stripLit ['[', 't', 'e', 'x', 't', '(', ')', '=', '"'] pf.2 with
      | none => none
      | some r4 =>
        let ps := spanChars (fun c => c != '"') r4
        match stripLit ['"', ']', '/', '.', '.'] ps.2 with
        | none => none
        | some [] => some (String.mk pa.1, String.mk pf.1, String.mk ps.1)
        | some (_ :: _) => none
    | _ => none

/-- Whether an element is selected by `//A/F[text()="S"]/..`: its tag is
`A` and some direct child tagged `F` has text content exactly `S`. -/
def matchesQ (a f s : String) (el : Element) : Bool :=
  el.tag == a && el.children.any (fun c => c.tag == f && c.text == some s)

/-- Evaluation of a parsed query `//A/F[text()="S"]/..` against the cached
document: every element of the tree (document order, root included) whose
tag is `A` and which has an `F` child with text exactly `S`.  XPath
node-sets carry no duplicates, so a record with two matching `F` children
still appears once — as it does here, since the filter keeps each parent
element once. -/
def evalQuery (doc : Element) : String × String × String → List Element
  | (a, f, s) => doc.descendantsOrSelf.filter (matchesQ a f s)

/-- Embedding of the query part of `_filter`, after the cache check:

    results = self._cache.xpath('//%s/%s[text()="%s"]/..' % (
        api_type, field, search,
    ))
    xp = [cls.load(el.id, self._api_key) for el in results]
    return xp -/
def filterQuery {β : Type} (load : Element → β) (doc : Element)
    (api_type search field : String) : Except PyError (List β) :=
  match parseQuery (buildQuery api_type field search) with
  | none => .error .xpathEvalError
  | some q => loadAll load (evalQuery doc q)

/-- Embedding of `OneLogin._filter(api_type, cls, search, field)`:

    if self._cache is None:
        self._reload()
    results = self._cache.xpath('//%s/%s[text()="%s"]/..' % (
        api_type, field, search,
    ))
    xp = [cls.load(el.id, self._api_key) for el in results]
    return xp

Unlike `_list`, the signature takes no `refresh` flag: the reload runs
only when the cache is absent. -/
def filter {β : Type} (net : String → GetOutcome) (parse : String → Option Element)
    (load : Element → β) (st : OLState) (api_type search field : String) :
    OLState × List String × Except PyError (List β) :=
  let step := if st.cache.isNone
    then reload net parse st none
    else (st, [], none)
  match step with
  | (st1, tr, some e) => (st1, tr, .error e)
  | (st1, tr, none) =>
    match st1.cache with
    | none => (st1, tr, .error .attributeError)
    | some doc => (st1, tr, filterQuery load doc api_type search field)

/-- Embedding of `OneLogin._find(api_type, cls, search, field)`:

    apobj = self._filter(api_type, cls, search, field)
    if len(apobj) > 0:
        return apobj[0]
    return None -/
def find {β : Type} (net : String → GetOutcome) (parse : String → Option Element)
    (load : Element → β) (st : OLState) (api_type search field : String) :
    OLState × List String × Except PyError (Option β) :=
  match filter net parse load st api_type search field with
  | (st1, tr, .error e) => (st1, tr, .error e)
  | (st1, tr, .ok l) => (st1, tr, .ok l.head?)

end OneLogin

/-- Embedding of `APIObject`: wraps one element (`self.__details`) plus the
identity read at construction (`self._id`). -/
structure APIObject where
  details : Element
  _id : Option String
deriving DecidableEq

/-- Embedding of `APIObject.__init__(self, el)`:

    self.__details = el
    self._id = self._find("id").text

`self._find("id")` is `el.find("id")`; when the node has no `id` child it
returns `None` and `.text` raises `AttributeError` (the MissingIdentity
condition of the spec), so construction fails.  When the child exists,
`_id` is its text content — `None` for an empty `<id/>` element, with no
non-emptiness check. -/
def APIObject.init (el : Element) : Except PyError APIObject :=
  match el.findChild "id" with
  | none => .error .attributeError
  | some c => .ok ⟨el, c.text⟩

/-- Embedding of `APIObject.__getattr__(self, key)`:

    f = self._find(key)
    if f is None:
        return None
    return f.text

Total: every field name yields either the found child's text content or
`None`; no exception is raised.  (Python only routes through
`__getattr__` for names that are not instance attributes, i.e. exactly
the dynamic field names modelled here.) -/
def APIObject.getattr (o : APIObject) (key : String) : Option String :=
  match o.details.findChild key with
  | none => none
  | some f => f.text

/-- Demo user record with an `id` and an `email` field. -/
def userEl (i email : String) : Element :=
  .mk "user" none [Element.mk "id" (some i) [], Element.mk "email" (some email) []]

/-- Demo listing document: the v3 API returns `<users><user>…</user>…</users>`,
here with emails "a@x.com" and "ab@x.com" (the P3 substring pair). -/
def demoDoc : Element :=
  .mk "users" none [userEl "1" "a@x.com", userEl "2" "ab@x.com"]

/-- Client state with `demoDoc` already cached. -/
def demoState : OLState :=
  { url := "https://api.onelogin.com/api/v3/users", cache := some demoDoc }

/-- Client state with an empty cache. -/
def emptyState : OLState :=
  { url := "https://api.onelogin.com/api/v3/users", cache := none }

/-- Network oracle on which every GET fails at the connection level. -/
def netFail : String → GetOutcome := fun _ => .failure

/-- Parse function on which every body is malformed (XMLSyntaxError). -/
def parseNone : String → Option Element := fun _ => none

/-- Network oracle answering every GET with HTTP 200 and the body "good". -/
def netGood : String → GetOutcome := fun _ => .response 200 "good"

/-- Parse function mapping the body "good" to `demoDoc`. -/
def parseGood : String → Option Element :=
  fun s => if s == "good" then some demoDoc else none

/-- Well-formed XML error body a failing server might return. -/
def errBody : String := "<error>Server Error</error>"

/-- Network oracle answering every GET with HTTP 500 and `errBody`. -/
def net500 : String → GetOutcome := fun _ => .response 500 errBody

/-- Parsed form of `errBody`. -/
def errDoc : Element := .mk "error" (some "Server Error") []

/-- Parse function mapping `errBody` to `errDoc`. -/
def parse500 : String → Option Element :=
  fun s => if s == errBody then some errDoc else none

/-- Listing document holding one record whose email text contains a double
quote. -/
def quoteDoc : Element := .mk "users" none [userEl "1" "x\"y"]

/-- Client state with `quoteDoc` already cached. -/
def quoteState : OLState := { url := "u", cache := some quoteDoc }

/-- Record whose `id` child element is empty (`<id/>`), so its text content
is `None`. -/
def emptyIdRecord : Element := .mk "user" none [Element.mk "id" none []]

/-- Record with no `id` child at all. -/
def noIdRecord : Element := .mk "user" none [Element.mk "email" (some "a@x.com") []]

/-- State reached by a first `_list` call from the empty cache against the
well-behaved server: the reload it triggers populates the cache. -/
def stAfterFirstList : OLState :=
  (OneLogin.list netGood parseGood (fun e => e) emptyState "user" false).1

theorem spanChars_app (p : Char → Bool) (xs ys : List Char) (y : Char)
    (hxs : ∀ c ∈ xs, p c = true) (hy : p y = false) :
    OneLogin.spanChars p (xs ++ y :: ys) = (xs, y :: ys) := by
  induction xs with
  | nil => simp [OneLogin.spanChars, hy]
  | cons c cs ih =>
    have hc : p c = true := hxs c (by simp)
    simp [OneLogin.spanChars, hc, ih (fun d hd => hxs d (by simp [hd]))]

theorem stripLit_app (xs ys : List Char) :
    OneLogin.stripLit xs (xs ++ ys) = some ys := by
  induction xs with
  | nil => simp [OneLogin.stripLit]
  | cons c cs ih => simp [OneLogin.stripLit, ih]

theorem matchesQ_iff (a f s : String) (el : Element) :
    OneLogin.matchesQ a f s el = true ↔
      el.tag = a ∧ ∃ c ∈ el.children, c.tag = f ∧ c.text = some s := by
  simp [OneLogin.matchesQ, List.any_eq_true]

theorem loadAll_idsOf {β : Type} (load : Element → β) (els ids : List Element)
    (h : OneLogin.idsOf els = some ids) :
    OneLogin.loadAll load els = .ok (ids.map load) := by
  induction els generalizing ids with
  | nil =>
    simp only [OneLogin.idsOf, Option.some.injEq] at h
    subst h
    simp [OneLogin.loadAll]
  | cons o os ih =>
    simp only [OneLogin.idsOf] at h
    cases hfc : o.findChild "id" with
    | none => rw [hfc] at h; cases h
    | some i =>
      rw [hfc] at h
      cases hio : OneLogin.idsOf os with
      | none => rw [hio] at h; cases h
      | some tl =>
        rw [hio] at h
        simp only [Option.map, Option.some.injEq] at h
        subst h
        simp [OneLogin.loadAll, hfc, ih tl hio, Except.map]

theorem buildQuery_data (a f s : String) :
    (OneLogin.buildQuery a f s).data
      = '/' :: '/' :: (a.data ++ '/' :: (f.data
          ++ ('[' :: 't' :: 'e' :: 'x' :: 't' :: '(' :: ')' :: '=' :: '"'
              :: (s.data ++ '"' :: ']' :: '/' :: '.' :: '.' :: [])))) := by
  simp [OneLogin.buildQuery, String.data_append]

theorem parseQuery_buildQuery (a f s : String)
    (ha1 : a.data ≠ []) (ha2 : ∀ c ∈ a.data, OneLogin.isNameChar c = true)
    (hf1 : f.data ≠ []) (hf2 : ∀ c ∈ f.data, OneLogin.isNameChar c = true)
    (hs : ∀ c ∈ s.data, c ≠ '"') :
    OneLogin.parseQuery (OneLogin.buildQuery a f s) = some (a, f, s) := by
  have haE : a.data.isEmpty = false := by
    cases h : a.data with
    | nil => exact absurd h ha1
    | cons c cs => rfl
  have hfE : f.data.isEmpty = false := by
    cases h : f.data with
    | nil => exact absurd h hf1
    | cons c cs => rfl
  have e1 : OneLogin.stripLit ['/', '/']
      ('/' :: '/' :: (a.data ++ '/' :: (f.data
          ++ ('[' :: 't' :: 'e' :: 'x' :: 't' :: '(' :: ')' :: '=' :: '"'
              :: (s.data ++ '"' :: ']' :: '/' :: '.' :: '.' :: [])))))
      = some (a.data ++ '/' :: (f.data
          ++ ('[' :: 't' :: 'e' :: 'x' :: 't' :: '(' :: ')' :: '=' :: '"'
              :: (s.data ++ '"' :: ']' :: '/' :: '.' :: '.' :: [])))) :=
    stripLit_app ['/', '/'] _
  have e2 : OneLogin.spanChars OneLogin.isNameChar
      (a.data ++ '/' :: (f.data
          ++ ('[' :: 't' :: 'e' :: 'x' :: 't' :: '(' :: ')' :: '=' :: '"'
              :: (s.data ++ '"' :: ']' :: '/' :: '.' :: '.' :: []))))
      = (a.data, '/' :: (f.data
          ++ ('[' :: 't' :: 'e' :: 'x' :: 't' :: '(' :: ')' :: '=' :: '"'
              :: (s.data ++ '"' :: ']' :: '/' :: '.' :: '.' :: [])))) :=
    spanChars_app _ _ _ _ ha2 (by decide)
  have e3 : OneLogin.spanChars OneLogin.isNameChar
      (f.data ++ ('[' :: 't' :: 'e' :: 'x' :: 't' :: '(' :: ')' :: '=' :: '"'
              :: (s.data ++ '"' :: ']' :: '/' :: '.' :: '.' :: [])))
      = (f.data, '[' :: 't' :: 'e' :: 'x' :: 't' :: '(' :: ')' :: '=' :: '"'
              :: (s.data ++ '"' :: ']' :: '/' :: '.' :: '.' :: [])) :=
    spanChars_app _ _ _ _ hf2 (by decide)
  have e4 : OneLogin.stripLit ['[', 't', 'e', 'x', 't', '(', ')', '=', '"']
      ('[' :: 't' :: 'e' :: 'x' :: 't' :: '(' :: ')' :: '=' :: '"'
              :: (s.data ++ '"' :: ']' :: '/' :: '.' :: '.' :: []))
      = some (s.data ++ '"' :: ']' :: '/' :: '.' :: '.' :: []) :=
    stripLit_app ['[', 't', 'e', 'x', 't', '(', ')', '=', '"'] _
  have e5 : OneLogin.spanChars (fun c => c != '"')
      (s.data ++ '"' :: ']' :: '/' :: '.' :: '.' :: [])
      = (s.data, '"' :: ']' :: '/' :: '.' :: '.' :: []) :=
    spanChars_app _ _ _ _ (fun c hc => by simpa using hs c hc) (by decide)
  have e6 : OneLogin.stripLit ['"', ']', '/', '.', '.']
      ('"' :: ']' :: '/' :: '.' :: '.' :: []) = some [] :=
    stripLit_app ['"', ']', '/', '.', '.'] []
  simp only [OneLogin.parseQuery, buildQuery_data, e1, e2, e3, e4, e5, e6,
    haE, hfE, Bool.false_eq_true, if_false]

/-- C1: if the cache holds a previously parsed document and a reload
fetches bytes that fail to parse as the hierarchical document, the cache
after the failed reload still equals the previous document — the cache
reference is assigned only after a successful parse — and the parse
failure (XMLSyntaxError) propagates to the caller. -/
theorem C1_parse_failure_preserves_cache
    (net : String → GetOutcome) (parse : String → Option Element)
    (st : OLState) (urlArg : Option String) (D : Element)
    (status : Nat) (content : String)
    (hcache : st.cache = some D)
    (hnet : net (urlArg.getD st.url) = .response status content)
    (hparse : parse content = none) :
    (OneLogin.reload net parse st urlArg).1.cache = some D ∧
    (OneLogin.reload net parse st urlArg).2.2 = some PyError.xmlSyntaxError := by
  simp [OneLogin.reload, hnet, hparse, hcache]

theorem C1_witness :
    demoState.cache = some demoDoc ∧
    netGood ((none : Option String).getD demoState.url) = .response 200 "good" ∧
    parseNone "good" = none ∧
    ((OneLogin.reload netGood parseNone demoState none).1.cache = some demoDoc ∧
     (OneLogin.reload netGood parseNone demoState none).2.2 = some PyError.xmlSyntaxError) :=
  ⟨rfl, rfl, rfl,
    C1_parse_failure_preserves_cache netGood parseNone demoState none demoDoc 200 "good"
      rfl rfl rfl⟩

/-- C2 (code-bug demonstration): the claim says every non-2xx HTTP status
surfaces as NetworkException and no error body is interpreted as document
data.  The code never raises `NetworkException` (the class is defined and
dead) and never inspects the status: a GET answered with HTTP 500 and a
well-formed XML error body raises nothing, and the parsed error body
replaces the cache as if it were the listing document. -/
theorem C2_non2xx_parsed_not_rejected :
    net500 emptyState.url = .response 500 errBody ∧
    OneLogin.reload net500 parse500 emptyState (some emptyState.url)
      = ({ emptyState with cache := some errDoc }, [emptyState.url], none) :=
  ⟨rfl, rfl⟩

/-- C6: when `filter` returns a result list, `find` with the same
arguments returns its first element wrapped in `some`, and `none` — an
explicit absent value, not an error — when that list is empty. -/
theorem C6_find_first_of_filter {β : Type}
    (net : String → GetOutcome) (parse : String → Option Element)
    (load : Element → β) (st : OLState) (api_type search fieldName : String)
    (l : List β)
    (h : (OneLogin.filter net parse load st api_type search fieldName).2.2 = .ok l) :
    (OneLogin.find net parse load st api_type search fieldName).2.2 = .ok l.head? ∧
    (l = [] →
      (OneLogin.find net parse load st api_type search fieldName).2.2 = .ok none) ∧
    (∀ b bs, l = b :: bs →
      (OneLogin.find net parse load st api_type search fieldName).2.2 = .ok (some b)) := by
  rcases hfe : OneLogin.filter net parse load st api_type search fieldName with ⟨st1, tr, r⟩
  rw [hfe] at h
  simp only at h
  subst h
  refine ⟨?_, ?_, ?_⟩
  · simp [OneLogin.find, hfe]
  · intro h0; subst h0; simp [OneLogin.find, hfe]
  · intro b bs hbs; subst hbs; simp [OneLogin.find, hfe]

theorem C6_witness :
    ((OneLogin.filter netFail parseNone (fun e => e) demoState
        "user" "nonexistent@x.com" "email").2.2 = Except.ok ([] : List Element)) ∧
    ((OneLogin.find netFail parseNone (fun e => e) demoState
        "user" "nonexistent@x.com" "email").2.2 = Except.ok (none : Option Element)) := by
  have h : (OneLogin.filter netFail parseNone (fun e => e) demoState
      "user" "nonexistent@x.com" "email").2.2 = Except.ok ([] : List Element) := by rfl
  exact ⟨h, (C6_find_first_of_filter netFail parseNone (fun e => e) demoState
    "user" "nonexistent@x.com" "email" [] h).2.1 rfl⟩

/-- C7 counterexample: a record whose `id` child is the empty element
(text content `None`, as lxml parses `<id/>`): construction succeeds, yet
the stored identity is absent — refuting the part of the claim that a
successfully constructed object's identity is always present and
non-empty. -/
theorem C7_counterexample :
    APIObject.init emptyIdRecord = .ok ⟨emptyIdRecord, none⟩ := rfl

/-- C7 (amended): construction fails with AttributeError — the spec's
MissingIdentity condition — exactly when the node has no `id` child, for
every node and hence every resource type; when an `id` child exists,
construction succeeds and the identity is that child's text content,
which is not checked for presence or non-emptiness. -/
theorem C7_init_requires_id_child (el : Element) :
    (el.findChild "id" = none → APIObject.init el = .error PyError.attributeError) ∧
    (∀ c, el.findChild "id" = some c → APIObject.init el = .ok ⟨el, c.text⟩) := by
  constructor
  · intro h; simp [APIObject.init, h]
  · intro c h; simp [APIObject.init, h]

theorem C7_witness :
    noIdRecord.findChild "id" = none ∧
    APIObject.init noIdRecord = .error PyError.attributeError :=
  ⟨rfl, (C7_init_requires_id_child noIdRecord).1 rfl⟩

/-- C8: field access returns the found child's text content when a child
with the requested name exists and the absent value `none` when it does
not; `getattr` is a total function into `Option String`, so no requested
field name can raise. -/
theorem C8_getattr_total (o : APIObject) (key : String) :
    (o.details.findChild key = none → o.getattr key = none) ∧
    (∀ f, o.details.findChild key = some f → o.getattr key = f.text) := by
  constructor
  · intro h; simp [APIObject.getattr, h]
  · intro f h; simp [APIObject.getattr, h]

theorem C8_witness :
    (APIObject.mk (userEl "1" "a@x.com") (some "1")).details.findChild "phone" = none ∧
    (APIObject.mk (userEl "1" "a@x.com") (some "1")).getattr "phone" = none :=
  ⟨rfl, (C8_getattr_total (APIObject.mk (userEl "1" "a@x.com") (some "1")) "phone").1 rfl⟩

theorem reload_trace (net : String → GetOutcome) (parse : String → Option Element)
    (st : OLState) (urlArg : Option String) :
    (OneLogin.reload net parse st urlArg).2.1 = [urlArg.getD st.url] := by
  cases hn : net (urlArg.getD st.url) with
  | failure => simp [OneLogin.reload, hn]
  | response s c =>
    cases hp : parse c with
    | none => simp [OneLogin.reload, hn, hp]
    | some d => simp [OneLogin.reload, hn, hp]

/-- C3: for a populated cache, well-formed section and field names and a
double-quote-free search term, `filter` returns the loaded objects of
exactly those records whose child field named `fieldName` has text
content equal to `search` by full, case-sensitive string equality — the
membership characterisation rules out substring or prefix matches — in
document order (the match list is a sublist of the document-order node
list), and the match list may be empty. -/
theorem C3_filter_exact_match {β : Type}
    (net : String → GetOutcome) (parse : String → Option Element)
    (load : Element → β) (st : OLState) (doc : Element)
    (T search fieldName : String)
    (hcache : st.cache = some doc)
    (hT1 : T.data ≠ []) (hT2 : ∀ c ∈ T.data, OneLogin.isNameChar c = true)
    (hf1 : fieldName.data ≠ [])
    (hf2 : ∀ c ∈ fieldName.data, OneLogin.isNameChar c = true)
    (hs : ∀ c ∈ search.data, c ≠ '"') :
    ((OneLogin.filter net parse load st T search fieldName).2.2
        = OneLogin.loadAll load
            (doc.descendantsOrSelf.filter (OneLogin.matchesQ T fieldName search))) ∧
    (doc.descendantsOrSelf.filter (OneLogin.matchesQ T fieldName search)).Sublist
        doc.descendantsOrSelf ∧
    (∀ el, el ∈ doc.descendantsOrSelf.filter (OneLogin.matchesQ T fieldName search) ↔
        el ∈ doc.descendantsOrSelf ∧ el.tag = T ∧
          ∃ c ∈ el.children, c.tag = fieldName ∧ c.text = some search) ∧
    (∀ ids, OneLogin.idsOf
          (doc.descendantsOrSelf.filter (OneLogin.matchesQ T fieldName search))
          = some ids →
        (OneLogin.filter net parse load st T search fieldName).2.2
          = .ok (ids.map load)) := by
  have hq := parseQuery_buildQuery T fieldName search hT1 hT2 hf1 hf2 hs
  have hfil : (OneLogin.filter net parse load st T search fieldName).2.2
      = OneLogin.loadAll load
          (doc.descendantsOrSelf.filter (OneLogin.matchesQ T fieldName search)) := by
    simp [OneLogin.filter, hcache, OneLogin.filterQuery, hq, OneLogin.evalQuery]
  refine ⟨hfil, List.filter_sublist _, ?_, ?_⟩
  · intro el
    simp [List.mem_filter, matchesQ_iff]
  · intro ids hids
    rw [hfil]
    exact loadAll_idsOf load _ ids hids

theorem C3_witness :
    (∀ c ∈ "a@x.com".data, c ≠ '"') ∧
    ((OneLogin.filter netFail parseNone (fun e => e) demoState
        "user" "a@x.com" "email").2.2
      = Except.ok [Element.mk "id" (some "1") []]) := by
  have h := C3_filter_exact_match netFail parseNone (fun e => e) demoState demoDoc
    "user" "a@x.com" "email" rfl (by decide) (by decide) (by decide) (by decide)
    (by decide)
  exact ⟨by decide, h.1.trans (by rfl)⟩

/-- C4: `filter` triggers a reload of the listing document exactly when
the cache is absent — its listing-fetch trace is the listing URL when the
cache is `None` and empty otherwise — and whenever a cached document is
present it leaves the state untouched and answers from that last-loaded
snapshot.  The embedded `filter`, like the source `_filter`, has no
refresh parameter in its signature, unlike `list`. -/
theorem C4_filter_reload_only_if_cache_absent {β : Type}
    (net : String → GetOutcome) (parse : String → Option Element)
    (load : Element → β) (st : OLState) (T search fieldName : String) :
    ((OneLogin.filter net parse load st T search fieldName).2.1
        = if st.cache.isNone then [st.url] else []) ∧
    (∀ doc, st.cache = some doc →
      OneLogin.filter net parse load st T search fieldName
        = (st, [], OneLogin.filterQuery load doc T search fieldName)) := by
  constructor
  · cases hc : st.cache with
    | some doc => simp [OneLogin.filter, hc]
    | none =>
      rcases hre : OneLogin.reload net parse st none with ⟨st1, tr, err⟩
      have htr : tr = [st.url] := by
        have h := reload_trace net parse st none
        rw [hre] at h
        simpa using h
      subst htr
      cases err with
      | none =>
        cases hc1 : st1.cache <;> simp [OneLogin.filter, hc, hre, hc1]
      | some e => simp [OneLogin.filter, hc, hre]
  · intro doc hdoc
    simp [OneLogin.filter, hdoc]

theorem C4_witness :
    demoState.cache = some demoDoc ∧
    OneLogin.filter netFail parseNone (fun e => e) demoState "user" "a@x.com" "email"
      = (demoState, [],
          OneLogin.filterQuery (fun e => e) demoDoc "user" "a@x.com" "email") :=
  ⟨rfl, (C4_filter_reload_only_if_cache_absent netFail parseNone (fun e => e)
      demoState "user" "a@x.com" "email").2 demoDoc rfl⟩

/-- C5: `list` reloads the listing document iff `refresh` is true or the
cache is empty — its listing-fetch trace is exactly the listing URL in
that case and empty otherwise — and with a populated cache a
`refresh = false` call leaves the state untouched, issues no listing
fetch, and reads the existing cached document. -/
theorem C5_list_reload_iff_refresh_or_empty {β : Type}
    (net : String → GetOutcome) (parse : String → Option Element)
    (load : Element → β) (st : OLState) (api_type : String) (refresh : Bool) :
    ((OneLogin.list net parse load st api_type refresh).2.1
        = if refresh || st.cache.isNone then [st.url] else []) ∧
    (∀ doc, st.cache = some doc →
      OneLogin.list net parse load st api_type false
        = (st, [], OneLogin.listQuery load doc api_type)) := by
  constructor
  · by_cases hr : (refresh || st.cache.isNone) = true
    · rw [if_pos hr]
      rcases hre : OneLogin.reload net parse st (some st.url) with ⟨st1, tr, err⟩
      have htr : tr = [st.url] := by
        have h := reload_trace net parse st (some st.url)
        rw [hre] at h
        simpa using h
      subst htr
      cases err with
      | none =>
        cases hc1 : st1.cache <;> simp [OneLogin.list, hr, hre, hc1]
      | some e => simp [OneLogin.list, hr, hre]
    · rw [if_neg hr]
      simp only [Bool.not_eq_true] at hr
      rcases Bool.or_eq_false_iff.mp hr with ⟨hrf, hcf⟩
      cases hc : st.cache with
      | none => rw [hc] at hcf; simp at hcf
      | some doc => simp [OneLogin.list, hrf, hc]
  · intro doc hdoc
    simp [OneLogin.list, hdoc]

theorem C5_witness :
    stAfterFirstList.cache = some demoDoc ∧
    OneLogin.list netGood parseGood (fun e => e) stAfterFirstList "user" false
      = (stAfterFirstList, [], OneLogin.listQuery (fun e => e) demoDoc "user") :=
  ⟨rfl, (C5_list_reload_iff_refresh_or_empty netGood parseGood (fun e => e)
      stAfterFirstList "user" false).2 demoDoc rfl⟩

/-- C9: with a populated cache whose section `api_type` is non-empty and
whose records each carry an `id` child, `list` with `refresh = false`
issues no fetch, applies the constructor once to each record's extracted
id, and returns the objects in the server-provided (document) order,
without deduplication: the result is exactly the element-wise image of
the section's id list. -/
theorem C9_list_one_object_per_record {β : Type}
    (net : String → GetOutcome) (parse : String → Option Element)
    (load : Element → β) (st : OLState) (doc : Element)
    (api_type : String) (ids : List Element)
    (hcache : st.cache = some doc)
    (hne : OneLogin.sectionRecords doc api_type ≠ [])
    (hids : OneLogin.idsOf (OneLogin.sectionRecords doc api_type) = some ids) :
    OneLogin.list net parse load st api_type false
      = (st, [], .ok (ids.map load)) := by
  cases hrec : OneLogin.sectionRecords doc api_type with
  | nil => exact absurd hrec hne
  | cons r rs =>
    have hmem : r ∈ OneLogin.sectionRecords doc api_type :=
      hrec ▸ List.mem_cons_self r rs
    have hmem' : r ∈ doc.children.filter (fun c => c.tag == api_type) := by
      simpa [OneLogin.sectionRecords] using hmem
    have hany : doc.children.any (fun c => c.tag == api_type) = true := by
      rcases List.mem_filter.mp hmem' with ⟨hin, hp⟩
      exact List.any_eq_true.mpr ⟨r, hin, hp⟩
    simp [OneLogin.list, hcache, OneLogin.listQuery, hany,
      loadAll_idsOf load _ ids hids]

theorem C9_witness :
    demoState.cache = some demoDoc ∧
    OneLogin.sectionRecords demoDoc "user" ≠ [] ∧
    OneLogin.idsOf (OneLogin.sectionRecords demoDoc "user")
      = some [Element.mk "id" (some "1") [], Element.mk "id" (some "2") []] ∧
    OneLogin.list netFail parseNone (fun e => e) demoState "user" false
      = (demoState, [],
          .ok [Element.mk "id" (some "1") [], Element.mk "id" (some "2") []]) := by
  have h := C9_list_one_object_per_record netFail parseNone (fun e => e) demoState
    demoDoc "user" [Element.mk "id" (some "1") [], Element.mk "id" (some "2") []]
    rfl (by decide) (by rfl)
  exact ⟨rfl, by decide, by rfl, h.trans (by rfl)⟩

/-- C10: `_filter` splices the caller-supplied search term into the XPath
text verbatim (`buildQuery` is plain string concatenation with no
escaping), so a search term containing a double quote produces a
malformed query: although the cached document holds a record whose
`email` field text is exactly that search term, `filter` raises
XPathEvalError instead of returning the exact match.  Exact-match
semantics therefore hold only for search strings free of query
metacharacters. -/
theorem C10_quote_injection_breaks_filter :
    ('"' ∈ "x\"y".data) ∧
    OneLogin.matchesQ "user" "email" "x\"y" (userEl "1" "x\"y") = true ∧
    OneLogin.parseQuery (OneLogin.buildQuery "user" "email" "x\"y") = none ∧
    ((OneLogin.filter netFail parseNone (fun e => e) quoteState
        "user" "x\"y" "email").2.2
      = Except.error PyError.xpathEvalError) :=
  ⟨by decide, by decide, by rfl, by rfl⟩
